import Mathlib

/-
Verification of the sway tab-color daemon (src/sway_tab_colors/sway_tab_colors.py)
against its natural-language specification.

The embedding is shallow: each Python function of the core engine becomes a
Lean definition over explicit state.  Python exceptions raised during rule
evaluation (an attribute error on a missing string method of a null value)
are modelled with Except Unit; the applied-state cache (the APPLIED_COLORS
global) is a function from window ids to optional decisions, passed
explicitly; the IPC collaborator is modelled by a boolean saying whether the
outbound command succeeds, and each operation returns the list of commands it
attempted to issue.
-/

deriving instance DecidableEq for Except

namespace SwayTabColors

/-! ## Substring test: Python's `in` operator on strings -/

/-- Auxiliary contiguous-substring test on character lists: true iff `n`
occurs as a contiguous sublist of the second argument. -/
def containsAux (n : List Char) : List Char → Bool
  | [] => n.isEmpty
  | c :: t => n.isPrefixOf (c :: t) || containsAux n t

/-- Python `needle in hay` for strings: contiguous substring test. -/
def strContains (needle hay : String) : Bool :=
  containsAux needle.data hay.data

/-- Python's `str.lower()`, character by character (the rules and window
attributes the daemon compares are ASCII, where the two agree). -/
def lowerStr (s : String) : String :=
  String.mk (s.data.map Char.toLower)

/-! ## Data model -/

/-- A color rule: one JSON object of the config file's rule array.  Every
field is optional, mirroring `rule.get(...)` / `"key" in rule` access in the
source.  The Python key `match` is spelled `match_`, `class` is `cls`, and
`instance` is `inst`, because those words are reserved in Lean. -/
structure Rule where
  match_ : Option String := none
  app_id : Option String := none
  title : Option String := none
  cls : Option String := none
  inst : Option String := none
  role : Option String := none
  shell : Option String := none
  bg_color : Option String := none
  text_color : Option String := none
deriving DecidableEq, Inhabited

/-- A window handle as the i3ipc library exposes it to the daemon.  Fields
that Python may report as `None` are `Option String`.  `has_ipc_data` models
`hasattr(window, 'ipc_data')`, and `ipc_shell` models
`window.ipc_data.get('shell')` (which is `None` when the ipc data carries no
shell entry). -/
structure Window where
  id : Nat
  app_id : Option String := none
  name : Option String := none
  window_class : Option String := none
  window_instance : Option String := none
  window_role : Option String := none
  has_ipc_data : Bool := false
  ipc_shell : Option String := none
deriving DecidableEq, Inhabited

/-- The `props` dictionary built at the top of `get_colors_for_window`.
All fields except `shell` are defaulted to `""` via Python's `or ""`; the
`shell` entry is `window.ipc_data.get('shell') if hasattr(window, 'ipc_data')
else ""`, whose value is null (here `none`) when the ipc data exists but has
no shell key. -/
structure Props where
  app_id : String
  title : String
  cls : String
  inst : String
  role : String
  shell : Option String
deriving DecidableEq

/-- Build the `props` dictionary from a window, as in the source. -/
def propsOf (w : Window) : Props :=
  { app_id := w.app_id.getD ""
    title := w.name.getD ""
    cls := w.window_class.getD ""
    inst := w.window_instance.getD ""
    role := w.window_role.getD ""
    shell := if w.has_ipc_data then w.ipc_shell else some "" }

/-! ## Matcher: `get_colors_for_window` -/

/-- Step 1 of rule evaluation: the generic `match` key must occur (lowercased)
as a substring of the lowercased title, app_id or class; a rule without a
`match` key passes this check. -/
def genericOk (r : Rule) (p : Props) : Bool :=
  match r.match_ with
  | none => true
  | some k =>
    strContains (lowerStr k) (lowerStr p.title) || strContains (lowerStr k) (lowerStr p.app_id) ||
      strContains (lowerStr k) (lowerStr p.cls)

/-- Step 2 of rule evaluation: the `for prop_name in [...]` loop.  Each pair
is (rule constraint, window property).  A present constraint whose property
is null raises (`Except.error ()`, the AttributeError on `None.lower()`);
the first present constraint that fails the substring test exits the loop
with result `false` (Python's `break`). -/
def specificPass : List (Option String × Option String) → Except Unit Bool
  | [] => .ok true
  | (none, _) :: rest => specificPass rest
  | (some _, none) :: _ => .error ()
  | (some v, some pv) :: rest =>
    if strContains (lowerStr v) (lowerStr pv) then specificPass rest else .ok false

/-- The checks of the specific-property loop, in the source's order
`["app_id", "title", "class", "instance", "role", "shell"]`.  Only the shell
property can be null. -/
def ruleChecks (r : Rule) (p : Props) : List (Option String × Option String) :=
  [(r.app_id, some p.app_id), (r.title, some p.title), (r.cls, some p.cls),
   (r.inst, some p.inst), (r.role, some p.role), (r.shell, p.shell)]

/-- Full evaluation of one rule against a window's props: `is_match` is the
conjunction of the generic check and the specific loop; the loop runs even
when the generic check already failed, exactly as in the source, so it can
still raise. -/
def ruleMatches (r : Rule) (p : Props) : Except Unit Bool :=
  match specificPass (ruleChecks r p) with
  | .error e => .error e
  | .ok s => .ok (genericOk r p && s)

/-- The `for rule in COLOR_RULES` loop: first rule that fully matches wins;
an exception raised while evaluating a rule propagates. -/
def matchLoop (p : Props) : List Rule → Except Unit (Option String × Option String)
  | [] => .ok (none, none)
  | r :: rest =>
    match ruleMatches r p with
    | .error e => .error e
    | .ok true => .ok (r.bg_color, r.text_color)
    | .ok false => matchLoop p rest

/-- `get_colors_for_window`: returns the first matching rule's
`(bg_color, text_color)`, or `(None, None)` when no rule matches; raises
(models `Except.error`) when a rule evaluation raises. -/
def get_colors_for_window (rules : List Rule) (w : Window) :
    Except Unit (Option String × Option String) :=
  matchLoop (propsOf w) rules

/-! ## Formatter and reconciler: `apply_title_format` -/

/-- Python truthiness of an optional string: `None` and `""` are falsy. -/
def truthy : Option String → Bool
  | none => false
  | some s => !s.isEmpty

/-- The double-quote character, written by code point to keep string
literals free of quoting subtleties. -/
def dq : Char := Char.ofNat 34

/-- The backslash character. -/
def bsl : Char := Char.ofNat 92

/-- The single-quote character as a one-character string (used around Pango
attribute values). -/
def sq : String := String.singleton (Char.ofNat 39)

/-- The Pango attribute string built by the two `if` statements of the
source: a ` background=` part when `bg_color` is truthy, then a
` foreground=` part when `text_color` is truthy. -/
def attrsFor (bg tc : Option String) : String :=
  (if truthy bg then " background=" ++ sq ++ bg.getD "" ++ sq else "") ++
    (if truthy tc then " foreground=" ++ sq ++ tc.getD "" ++ sq else "")

/-- The `fmt` string of `apply_title_format`: a markup-wrapped template when
either color is truthy, otherwise the bare `%title` template; `suffix` is
appended to the placeholder in both branches. -/
def format_title (bg tc : Option String) (suffix : String) : String :=
  if truthy bg || truthy tc then
    "<span" ++ attrsFor bg tc ++ "> %title" ++ suffix ++ " </span>"
  else
    "%title" ++ suffix

/-- `window.ipc_data.get('shell') if hasattr(window, 'ipc_data') else None`,
as computed in `apply_title_format` for the suffix decision. -/
def shell_of (w : Window) : Option String :=
  if w.has_ipc_data then w.ipc_shell else none

/-- The XWayland suffix: `" [XWayland]"` exactly when the shell indicator
equals `"xwayland"`. -/
def suffix_of (w : Window) : String :=
  if shell_of w = some "xwayland" then " [XWayland]" else ""

/-- `fmt.replace('"', '\\"')`: escape each double quote with a backslash. -/
def escape_quotes (s : String) : String :=
  String.mk (s.data.foldr (fun c acc => if c = dq then bsl :: dq :: acc else c :: acc) [])

/-- A color decision: the `(bg_color, text_color)` pair. -/
abbrev Decision := Option String × Option String

/-- The applied-state cache `APPLIED_COLORS`: window id to last decision sent. -/
abbrev Cache := Nat → Option Decision

/-- The outbound sway command string built by `apply_title_format`. -/
def sway_cmd (w : Window) (bg tc : Option String) : String :=
  "[con_id=" ++ toString w.id ++ "] title_format " ++ String.singleton dq ++
    escape_quotes (format_title bg tc (suffix_of w)) ++ String.singleton dq

/-- `apply_title_format`.  `ipcOk` says whether `ipc.command` succeeds.
Result: the new cache, the list of commands whose issuance was attempted
(empty on the cache-hit fast path), and whether the call returned normally
(`false` models the IPC exception propagating out before the cache update). -/
def apply_title_format (ipcOk : Bool) (cache : Cache) (w : Window) (bg tc : Option String) :
    Cache × List String × Bool :=
  if cache w.id = some (bg, tc) then
    (cache, [], true)
  else
    let cmd := sway_cmd w bg tc
    if ipcOk then
      (fun i => if i = w.id then some (bg, tc) else cache i, [cmd], true)
    else
      (cache, [cmd], false)

/-! ## Config store: `load_config` -/

/-- The daemon's process-wide mutable state touched by `load_config`:
`COLOR_RULES`, `LAST_MTIME`, `LAST_ERROR` and `APPLIED_COLORS`. -/
structure ConfigState where
  color_rules : List Rule
  last_mtime : Nat
  last_error : String
  applied_colors : Cache

/-- One observation of the config file at load time: whether it exists, its
modification time, the parse result (`none` when `json.load` raises), the
exception text used in the error message when parsing fails, and the path
used in the not-found message. -/
structure FileView where
  present : Bool
  mtime : Nat
  parsed : Option (List Rule)
  parse_msg : String
  path : String

/-- The not-found error message. -/
def not_found_msg (path : String) : String :=
  "Config file not found: " ++ path

/-- The load-failure error message built from the exception text. -/
def load_error_msg (e : String) : String :=
  "Error loading config: " ++ e

/-- Record an error message, deduplicated: `LAST_ERROR` is only rewritten
(and the message only printed) when it differs from the previous one. -/
def record_error (msg : String) (st : ConfigState) : ConfigState :=
  if msg = st.last_error then st else { st with last_error := msg }

/-- `load_config`: returns the new state and the boolean result.  Absent
file: record error, `False`.  Modification time not strictly newer: `False`.
Parse failure: record error, `False`, leaving rules, mtime and cache
untouched (the Python assignment to `COLOR_RULES` never executes when
`json.load` raises).  Success: replace the rules, advance the mtime, clear
the error, clear the applied-state cache, `True`. -/
def load_config (fv : FileView) (st : ConfigState) : ConfigState × Bool :=
  if !fv.present then
    (record_error (not_found_msg fv.path) st, false)
  else if fv.mtime ≤ st.last_mtime then
    (st, false)
  else
    match fv.parsed with
    | none => (record_error (load_error_msg fv.parse_msg) st, false)
    | some rs =>
      ({ color_rules := rs, last_mtime := fv.mtime, last_error := "",
         applied_colors := fun _ => none }, true)

/-! ## Sample configurations and windows used in concrete instantiations -/

/-- A catch-all rule (no constraint fields) selecting red on black. -/
def sampleRed : Rule := { bg_color := some "#ff0000", text_color := some "#000000" }

/-- A rule whose `app_id` constraint matches none of the sample windows. -/
def ruleBlock : Rule := { app_id := some "zzz" }

/-- A catch-all rule selecting green. -/
def ruleGreen : Rule := { bg_color := some "#00ff00" }

/-- A plain native window. -/
def sampleWindow : Window := { id := 1, app_id := some "kitty", name := some "shell" }

/-- A window whose ipc data exists but carries no shell entry, so its
`shell` prop is null. -/
def nullShellWindow : Window :=
  { id := 7, app_id := some "emacs", has_ipc_data := true, ipc_shell := none }

/-- A rule constraining the `shell` field. -/
def shellRule : Rule := { shell := some "xwayland", bg_color := some "#ff0000" }

/-- A rule whose only constraint field is `shell`, with the empty string as
its value. -/
def emptyShellRule : Rule := { shell := some "", bg_color := some "#00ff00" }

/-- A rule with only a generic `match` key. -/
def firefoxRule : Rule := { match_ := some "Firefox" }

/-- A window whose title contains "Mozilla Firefox" but whose app_id does
not contain "firefox". -/
def wFx : Window := { id := 2, name := some "Welcome - Mozilla Firefox", app_id := some "web-browser" }

/-- A window containing "firefox" in none of title, app_id, class. -/
def wNone : Window :=
  { id := 3, name := some "scratch", app_id := some "emacs", window_class := some "Emacs" }

/-- An XWayland window. -/
def xwWindow : Window :=
  { id := 4, name := some "legacy app", has_ipc_data := true, ipc_shell := some "xwayland" }

/-- A rule with every constraint field present and equal to the empty string. -/
def allEmptyRule : Rule :=
  { match_ := some "", app_id := some "", title := some "", cls := some "", inst := some "",
    role := some "", shell := some "", bg_color := some "#abcdef" }

/-- A fresh successful config observation for the reload scenario. -/
def fvC2 : FileView :=
  { present := true, mtime := 2, parsed := some [sampleRed], parse_msg := "",
    path := "tab_colors.json" }

/-- State before the reload scenario: the same rules already loaded and the
red decision already cached for window 1. -/
def stC2 : ConfigState :=
  { color_rules := [sampleRed], last_mtime := 1, last_error := "",
    applied_colors := fun i => if i = 1 then some (some "#ff0000", some "#000000") else none }

/-- State after the reload scenario: cache cleared, mtime advanced. -/
def stC2' : ConfigState :=
  { color_rules := [sampleRed], last_mtime := 2, last_error := "",
    applied_colors := fun _ => none }

/-- A malformed config observation. -/
def fvC4 : FileView :=
  { present := true, mtime := 5, parsed := none,
    parse_msg := "Expecting value: line 1 column 1 (char 0)", path := "tab_colors.json" }

/-- State before the malformed reload. -/
def stC4 : ConfigState :=
  { color_rules := [sampleRed], last_mtime := 4, last_error := "",
    applied_colors := fun _ => none }

/-! ## Helper lemmas about the substring test -/

theorem isPrefixOf_self_append (n b : List Char) : n.isPrefixOf (n ++ b) = true := by
  induction n with
  | nil => simp [List.isPrefixOf]
  | cons c t ih => simp [List.isPrefixOf, ih]

theorem containsAux_nil_needle (l : List Char) : containsAux [] l = true := by
  cases l with
  | nil => rfl
  | cons c t => simp [containsAux, List.isPrefixOf]

theorem strContains_empty_needle (s : String) : strContains "" s = true :=
  containsAux_nil_needle s.data

theorem containsAux_of_isPrefixOf {n b : List Char} (h : n.isPrefixOf b = true) :
    containsAux n b = true := by
  cases b with
  | nil =>
    cases n with
    | nil => rfl
    | cons c t => simp [List.isPrefixOf] at h
  | cons c t => simp [containsAux, h]

theorem containsAux_append_right (n a : List Char) {b : List Char}
    (h : containsAux n b = true) : containsAux n (a ++ b) = true := by
  induction a with
  | nil => simpa using h
  | cons c t ih => simp [containsAux, ih]

/-- If the character data of `h` splits as `pre ++ n.data ++ post`, then `n`
occurs in `h` as a substring. -/
theorem strContains_of_data (n h : String) (pre post : List Char)
    (hd : h.data = pre ++ (n.data ++ post)) : strContains n h = true := by
  unfold strContains
  rw [hd]
  exact containsAux_append_right _ pre
    (containsAux_of_isPrefixOf (isPrefixOf_self_append _ _))

theorem lowerStr_empty : lowerStr "" = "" := by decide

theorem opt_empty_of_getD {o : Option String} (h : o.getD "" = "") :
    o = none ∨ o = some "" := by
  cases o with
  | none => exact Or.inl rfl
  | some s => exact Or.inr (by simp at h; rw [h])

/-! ## Helper lemmas about the match loop -/

/-- A rule whose generic `match` key is absent or empty passes the generic
check on any props. -/
theorem genericOk_empty (r : Rule) (p : Props) (hm : r.match_.getD "" = "") :
    genericOk r p = true := by
  rcases opt_empty_of_getD hm with h | h <;>
    simp [genericOk, h, lowerStr_empty, strContains_empty_needle]

/-- The specific-property loop passes when every present constraint value is
the empty string and no present constraint faces a null property. -/
theorem specificPass_empty_vals (l : List (Option String × Option String))
    (h : ∀ pr ∈ l, (pr.1 = none ∨ pr.1 = some "") ∧ (pr.1 ≠ none → pr.2 ≠ none)) :
    specificPass l = .ok true := by
  induction l with
  | nil => rfl
  | cons pr rest ih =>
    obtain ⟨h1, h2⟩ := h pr (List.mem_cons_self pr rest)
    have hrest := ih fun q hq => h q (List.mem_cons_of_mem pr hq)
    rcases h1 with hn | he
    · obtain ⟨a, b⟩ := pr
      simp only at hn
      subst hn
      simpa [specificPass] using hrest
    · obtain ⟨a, b⟩ := pr
      simp only at he
      subst he
      have hb : b ≠ none := by
        apply h2
        simp
      cases b with
      | none => exact absurd rfl hb
      | some pv =>
        simpa [specificPass, lowerStr_empty, strContains_empty_needle] using hrest

theorem matchLoop_append_first (p : Props) (pre : List Rule) (r : Rule) (post : List Rule)
    (hpre : ∀ x ∈ pre, ruleMatches x p = Except.ok false)
    (hr : ruleMatches r p = Except.ok true) :
    matchLoop p (pre ++ r :: post) = Except.ok (r.bg_color, r.text_color) := by
  induction pre with
  | nil => simp [matchLoop, hr]
  | cons a t ih =>
    have ha : ruleMatches a p = Except.ok false := hpre a (List.mem_cons_self a t)
    simp only [List.cons_append, matchLoop, ha]
    exact ih fun x hx => hpre x (List.mem_cons_of_mem a hx)

theorem matchLoop_all_false (p : Props) (rules : List Rule)
    (h : ∀ r ∈ rules, ruleMatches r p = Except.ok false) :
    matchLoop p rules = Except.ok (none, none) := by
  induction rules with
  | nil => rfl
  | cons a t ih =>
    have ha : ruleMatches a p = Except.ok false := h a (List.mem_cons_self a t)
    simp only [matchLoop, ha]
    exact ih fun r hr => h r (List.mem_cons_of_mem a hr)

/-! ## Claims -/

/-- Claim C1: for every rule list and every window attribute snapshot, the
Matcher's decision is first-match-wins: if the rules at positions `i` and
`j` with `i < j` both fully satisfy the window's attributes, with `i` the
first satisfied position, the returned color pair equals rule `i`'s
`(bg_color, text_color)`; and the rules after the first match are never
consulted: replacing everything after position `i` by an arbitrary tail
yields the same decision. -/
theorem C1_first_match_wins (rules : List Rule) (w : Window) (i j : Nat)
    (hi : i < rules.length) (hj : j < rules.length) (hij : i < j)
    (hfirst : ∀ r ∈ rules.take i, ruleMatches r (propsOf w) = Except.ok false)
    (him : ruleMatches (rules.getD i default) (propsOf w) = Except.ok true)
    (hjm : ruleMatches (rules.getD j default) (propsOf w) = Except.ok true) :
    get_colors_for_window rules w =
      Except.ok ((rules.getD i default).bg_color, (rules.getD i default).text_color) ∧
    ∀ post : List Rule,
      get_colors_for_window (rules.take (i + 1) ++ post) w =
        Except.ok ((rules.getD i default).bg_color, (rules.getD i default).text_color) := by
  have hgd : rules.getD i default = rules[i] := List.getD_eq_getElem rules default hi
  have him' : ruleMatches rules[i] (propsOf w) = Except.ok true := by rw [← hgd]; exact him
  constructor
  · show matchLoop (propsOf w) rules = _
    conv_lhs => rw [← List.take_append_drop i rules, List.drop_eq_getElem_cons hi]
    rw [hgd]
    exact matchLoop_append_first _ _ _ _ hfirst him'
  · intro post
    show matchLoop (propsOf w) (rules.take (i + 1) ++ post) = _
    rw [List.take_succ, List.getElem?_eq_getElem hi, hgd]
    rw [List.append_assoc, Option.toList_some, List.singleton_append]
    exact matchLoop_append_first _ _ _ _ hfirst him'

/-- Witness for C1: in `[ruleBlock, sampleRed, ruleGreen]` the rules at
positions 1 and 2 both satisfy `sampleWindow` and the decision is rule 1's
red pair. -/
theorem C1_first_match_wins_witness :
    ruleMatches ([ruleBlock, sampleRed, ruleGreen].getD 1 default) (propsOf sampleWindow) =
      Except.ok true ∧
    get_colors_for_window [ruleBlock, sampleRed, ruleGreen] sampleWindow =
      Except.ok (some "#ff0000", some "#000000") :=
  ⟨by decide,
   (C1_first_match_wins [ruleBlock, sampleRed, ruleGreen] sampleWindow 1 2 (by decide) (by decide)
      (by decide) (by decide) (by decide) (by decide)).1⟩

/-- Claim C2: the applied-state cache is cleared in full by a successful
config reload (inside `load_config`); consequently, after a reload whose
new decision for a window is textually identical to that window's
previously cached decision, the next apply to that window issues exactly
one outbound command, and a further apply with no change issues zero
commands. -/
theorem C2_reload_clears_cache (fv : FileView) (st st' : ConfigState) (w : Window)
    (bg tc : Option String)
    (hload : load_config fv st = (st', true))
    (hcached : st.applied_colors w.id = some (bg, tc))
    (hdec : get_colors_for_window st'.color_rules w = Except.ok (bg, tc)) :
    (∀ i, st'.applied_colors i = none) ∧
    (apply_title_format true st'.applied_colors w bg tc).2.1.length = 1 ∧
    (apply_title_format true (apply_title_format true st'.applied_colors w bg tc).1 w bg tc).2.1
      = [] := by
  unfold load_config at hload
  split at hload
  · simp at hload
  · split at hload
    · simp at hload
    · split at hload
      · simp at hload
      · simp only [Prod.mk.injEq] at hload
        obtain ⟨hst, -⟩ := hload
        subst hst
        refine ⟨fun i => rfl, ?_, ?_⟩
        · simp [apply_title_format]
        · simp [apply_title_format]

/-- Witness for C2: reloading byte-identical rules while window 1's red
decision is cached still leads to one command on the next apply and zero on
the one after. -/
theorem C2_reload_clears_cache_witness :
    load_config fvC2 stC2 = (stC2', true) ∧
    stC2.applied_colors 1 = some (some "#ff0000", some "#000000") ∧
    (apply_title_format true stC2'.applied_colors sampleWindow (some "#ff0000")
      (some "#000000")).2.1.length = 1 ∧
    (apply_title_format true
      (apply_title_format true stC2'.applied_colors sampleWindow (some "#ff0000")
        (some "#000000")).1
      sampleWindow (some "#ff0000") (some "#000000")).2.1 = [] :=
  ⟨rfl, rfl,
   (C2_reload_clears_cache fvC2 stC2 stC2' sampleWindow (some "#ff0000") (some "#000000")
      rfl rfl (by decide)).2.1,
   (C2_reload_clears_cache fvC2 stC2 stC2' sampleWindow (some "#ff0000") (some "#000000")
      rfl rfl (by decide)).2.2⟩

/-- Claim C3: apply is idempotent with respect to outbound commands: for
every window, with unchanged attributes and rule set, the second of two
successive apply calls issues no command (the cached decision for that
window id now equals the computed decision); and when the decision was not
already cached, the first call issues exactly one command and records the
decision in the cache. -/
theorem C3_apply_idempotent (rules : List Rule) (cache : Cache) (w : Window)
    (bg tc : Option String)
    (hdec : get_colors_for_window rules w = Except.ok (bg, tc)) :
    (apply_title_format true (apply_title_format true cache w bg tc).1 w bg tc).2.1 = [] ∧
    (cache w.id ≠ some (bg, tc) →
      (apply_title_format true cache w bg tc).2.1.length = 1 ∧
      (apply_title_format true cache w bg tc).1 w.id = some (bg, tc)) := by
  constructor
  · by_cases h : cache w.id = some (bg, tc)
    · simp [apply_title_format, h]
    · simp [apply_title_format, h]
  · intro h
    simp [apply_title_format, h]

/-- Witness for C3: applying the red decision to `sampleWindow` twice from
an empty cache issues one command then none. -/
theorem C3_apply_idempotent_witness :
    (apply_title_format true
      (apply_title_format true (fun _ => none) sampleWindow (some "#ff0000")
        (some "#000000")).1
      sampleWindow (some "#ff0000") (some "#000000")).2.1 = [] ∧
    (apply_title_format true (fun _ => none) sampleWindow (some "#ff0000")
      (some "#000000")).2.1.length = 1 :=
  ⟨(C3_apply_idempotent [sampleRed] (fun _ => none) sampleWindow (some "#ff0000")
      (some "#000000") (by decide)).1,
   ((C3_apply_idempotent [sampleRed] (fun _ => none) sampleWindow (some "#ff0000")
      (some "#000000") (by decide)).2 (by decide)).1⟩

/-- Claim C4: when parsing the config file fails, `load_config` records an
error and returns `False` without replacing the previously loaded rule set,
so the matching behavior of every window is identical before and after the
failed load, and the rule set is never replaced by an empty set because of
a bad edit. -/
theorem C4_parse_failure_keeps_rules (fv : FileView) (st : ConfigState)
    (hpresent : fv.present = true) (hnewer : st.last_mtime < fv.mtime)
    (hbad : fv.parsed = none) :
    (load_config fv st).2 = false ∧
    (load_config fv st).1.color_rules = st.color_rules ∧
    (load_config fv st).1.last_error = load_error_msg fv.parse_msg ∧
    ∀ v : Window, get_colors_for_window (load_config fv st).1.color_rules v =
      get_colors_for_window st.color_rules v := by
  have h2 : ¬ fv.mtime ≤ st.last_mtime := Nat.not_le.mpr hnewer
  have hred : load_config fv st = (record_error (load_error_msg fv.parse_msg) st, false) := by
    simp [load_config, hpresent, hbad, h2]
  rw [hred]
  unfold record_error
  refine ⟨rfl, ?_, ?_, ?_⟩
  · split
    · rfl
    · rfl
  · split
    · rename_i h
      exact h.symm
    · rfl
  · intro v
    split
    · rfl
    · rfl

/-- Witness for C4: a malformed file observed with a newer mtime leaves the
red rule set in place, reports failure, and records the parse error. -/
theorem C4_parse_failure_keeps_rules_witness :
    (load_config fvC4 stC4).2 = false ∧
    (load_config fvC4 stC4).1.color_rules = [sampleRed] ∧
    (load_config fvC4 stC4).1.last_error =
      load_error_msg "Expecting value: line 1 column 1 (char 0)" :=
  ⟨(C4_parse_failure_keeps_rules fvC4 stC4 rfl (by decide) rfl).1,
   (C4_parse_failure_keeps_rules fvC4 stC4 rfl (by decide) rfl).2.1,
   (C4_parse_failure_keeps_rules fvC4 stC4 rfl (by decide) rfl).2.2.1⟩

/-- Claim C7: the applied-state cache entry for a window is written only
after command issuance has been attempted: when issuing the IPC command
fails, the cache is left unchanged (the decision is never falsely recorded
as applied), the command was nevertheless attempted, the call reports the
failure, and a later apply for the same window re-attempts the command. -/
theorem C7_failed_issue_not_cached (cache : Cache) (w : Window) (bg tc : Option String)
    (hmiss : cache w.id ≠ some (bg, tc)) :
    (apply_title_format false cache w bg tc).1 = cache ∧
    (apply_title_format false cache w bg tc).2.1.length = 1 ∧
    (apply_title_format false cache w bg tc).2.2 = false ∧
    (apply_title_format true (apply_title_format false cache w bg tc).1 w bg tc).2.1.length
      = 1 := by
  simp [apply_title_format, hmiss]

/-- Witness for C7: a failed issuance for `sampleWindow` leaves the empty
cache empty and the retry issues the command again. -/
theorem C7_failed_issue_not_cached_witness :
    (apply_title_format false (fun _ => none) sampleWindow (some "#123456") none).2.1.length
      = 1 ∧
    (apply_title_format false (fun _ => none) sampleWindow (some "#123456") none).2.2
      = false ∧
    (apply_title_format true
      (apply_title_format false (fun _ => none) sampleWindow (some "#123456") none).1
      sampleWindow (some "#123456") none).2.1.length = 1 :=
  ⟨(C7_failed_issue_not_cached (fun _ => none) sampleWindow (some "#123456") none
      (by decide)).2.1,
   (C7_failed_issue_not_cached (fun _ => none) sampleWindow (some "#123456") none
      (by decide)).2.2.1,
   (C7_failed_issue_not_cached (fun _ => none) sampleWindow (some "#123456") none
      (by decide)).2.2.2⟩

/-- Claim C5 (refuting evaluation): the claim asserts the attribute
snapshot's `shell` is the empty string, never null, whenever the underlying
attribute is absent, so that no rule evaluation can fail on a null
attribute.  In the code, `props["shell"]` is
`window.ipc_data.get('shell')` when the window has ipc data, which is null
when the ipc data lacks a shell entry; the `else ""` fallback only covers a
window without ipc data.  Evaluating a shell-constrained rule against such
a window then raises (`None.lower()`), modelled by `Except.error ()`. -/
theorem C5_shell_null_crash :
    (propsOf nullShellWindow).shell = none ∧
    (propsOf { nullShellWindow with has_ipc_data := false }).shell = some "" ∧
    get_colors_for_window [shellRule] nullShellWindow = Except.error () := by decide

/-- Claim C6: a rule that passes fully has its lowercased generic `match`
key occurring in at least one of the lowercased title, app_id, class; and
for a rule carrying only a generic `match` key this condition is exactly
equivalent to the rule matching. -/
theorem C6_generic_match (r : Rule) (w : Window) (k : String) (hm : r.match_ = some k) :
    (ruleMatches r (propsOf w) = Except.ok true →
      (strContains (lowerStr k) (lowerStr (propsOf w).title) ||
       strContains (lowerStr k) (lowerStr (propsOf w).app_id) ||
       strContains (lowerStr k) (lowerStr (propsOf w).cls)) = true) ∧
    (r.app_id = none → r.title = none → r.cls = none → r.inst = none → r.role = none →
     r.shell = none →
      (ruleMatches r (propsOf w) = Except.ok true ↔
        (strContains (lowerStr k) (lowerStr (propsOf w).title) ||
         strContains (lowerStr k) (lowerStr (propsOf w).app_id) ||
         strContains (lowerStr k) (lowerStr (propsOf w).cls)) = true)) := by
  constructor
  · intro hok
    unfold ruleMatches at hok
    cases hsp : specificPass (ruleChecks r (propsOf w)) with
    | error e => rw [hsp] at hok; simp at hok
    | ok s =>
      rw [hsp] at hok
      simp only [Except.ok.injEq] at hok
      rw [Bool.and_eq_true] at hok
      have hg : genericOk r (propsOf w) = true := hok.1
      unfold genericOk at hg
      rw [hm] at hg
      exact hg
  · intro h1 h2 h3 h4 h5 h6
    have hsp : specificPass (ruleChecks r (propsOf w)) = .ok true := by
      simp [ruleChecks, specificPass, h1, h2, h3, h4, h5, h6]
    unfold ruleMatches
    rw [hsp]
    unfold genericOk
    rw [hm]
    simp

/-- Witness for C6: `match="Firefox"` matches a window whose title contains
"Mozilla Firefox" even though its app_id does not contain "firefox", and
fails on a window containing "firefox" in none of the three fields. -/
theorem C6_generic_match_witness :
    ruleMatches firefoxRule (propsOf wFx) = Except.ok true ∧
    ruleMatches firefoxRule (propsOf wNone) ≠ Except.ok true :=
  ⟨((C6_generic_match firefoxRule wFx "Firefox" rfl).2 rfl rfl rfl rfl rfl rfl).mpr
      (by decide),
   fun hok => absurd
     (((C6_generic_match firefoxRule wNone "Firefox" rfl).2 rfl rfl rfl rfl rfl rfl).mp hok)
     (by decide)⟩

/-- Claim C8: a window matching zero rules gets decision `(None, None)`, and
the Formatter on a decision with both colors absent produces the bare
title-placeholder template plus suffix, with no markup wrapper and no
background/foreground attributes (byte-identical reset form). -/
theorem C8_no_match_bare_format (rules : List Rule) (w : Window) (suffix : String)
    (hnone : ∀ r ∈ rules, ruleMatches r (propsOf w) = Except.ok false) :
    get_colors_for_window rules w = Except.ok (none, none) ∧
    format_title none none suffix = "%title" ++ suffix := by
  refine ⟨matchLoop_all_false _ _ hnone, ?_⟩
  simp [format_title, truthy]

/-- Witness for C8: `sampleWindow` matches no rule of `[ruleBlock]` and the
colorless format is the bare template. -/
theorem C8_no_match_bare_format_witness :
    get_colors_for_window [ruleBlock] sampleWindow = Except.ok (none, none) ∧
    format_title none none " [XWayland]" = "%title" ++ " [XWayland]" :=
  ⟨(C8_no_match_bare_format [ruleBlock] sampleWindow " [XWayland]" (by decide)).1,
   (C8_no_match_bare_format [ruleBlock] sampleWindow " [XWayland]" (by decide)).2⟩

/-- Claim C9: an XWayland window's suffix is the fixed `" [XWayland]"`, and
every rendered title format for it — colored (markup-wrapped) or colorless
(bare) — contains the title placeholder with that suffix appended. -/
theorem C9_xwayland_suffix (w : Window) (hipc : w.has_ipc_data = true)
    (hshell : w.ipc_shell = some "xwayland") :
    suffix_of w = " [XWayland]" ∧
    ∀ bg tc : Option String,
      strContains "%title [XWayland]" (format_title bg tc (suffix_of w)) = true := by
  have hsuf : suffix_of w = " [XWayland]" := by
    simp [suffix_of, shell_of, hipc, hshell]
  refine ⟨hsuf, ?_⟩
  intro bg tc
  rw [hsuf]
  unfold format_title
  split
  · apply strContains_of_data _ _ (("<span" ++ attrsFor bg tc ++ "> ").data) (" </span>".data)
    simp only [String.data_append]
    simp [List.append_assoc]
  · decide

/-- Witness for C9: the XWayland sample window gets the suffix in both a
colored and the bare format. -/
theorem C9_xwayland_suffix_witness :
    suffix_of xwWindow = " [XWayland]" ∧
    strContains "%title [XWayland]"
      (format_title (some "#ff0000") none (suffix_of xwWindow)) = true ∧
    strContains "%title [XWayland]" (format_title none none (suffix_of xwWindow)) = true :=
  ⟨(C9_xwayland_suffix xwWindow rfl rfl).1,
   (C9_xwayland_suffix xwWindow rfl rfl).2 (some "#ff0000") none,
   (C9_xwayland_suffix xwWindow rfl rfl).2 none none⟩

/-- Counterexample to claim C10 as stated: a rule whose only constraint is
`shell` with the empty-string value does not match every window — against a
window whose ipc data lacks a shell entry, evaluation raises
(`Except.error`) instead of matching, so the rule's colors are not
returned. -/
theorem C10_empty_shell_counterexample :
    ruleMatches emptyShellRule (propsOf nullShellWindow) = Except.error () ∧
    get_colors_for_window [emptyShellRule] nullShellWindow ≠
      Except.ok (emptyShellRule.bg_color, emptyShellRule.text_color) := by decide

/-- Claim C10 as amended: a rule all of whose present constraint values
(generic `match` key included) are empty strings matches a window exactly
like a rule with no constraint fields, provided the rule does not constrain
`shell` or the window's shell snapshot is non-null; with a shell constraint
against a null shell snapshot, evaluation raises instead (see the
counterexample). -/
theorem C10_empty_constraints_match (r : Rule) (w : Window) (rest : List Rule)
    (hm : r.match_.getD "" = "") (ha : r.app_id.getD "" = "") (ht : r.title.getD "" = "")
    (hc : r.cls.getD "" = "") (hin : r.inst.getD "" = "") (hro : r.role.getD "" = "")
    (hs : r.shell.getD "" = "")
    (hsafe : r.shell = none ∨ (propsOf w).shell ≠ none) :
    ruleMatches r (propsOf w) = Except.ok true ∧
    ruleMatches ({} : Rule) (propsOf w) = Except.ok true ∧
    get_colors_for_window (r :: rest) w = Except.ok (r.bg_color, r.text_color) := by
  have hg := genericOk_empty r (propsOf w) hm
  have hsp : specificPass (ruleChecks r (propsOf w)) = .ok true := by
    apply specificPass_empty_vals
    intro pr hpr
    simp only [ruleChecks, List.mem_cons, List.mem_singleton, List.not_mem_nil, or_false]
      at hpr
    rcases hpr with h | h | h | h | h | h <;> subst h
    · exact ⟨opt_empty_of_getD ha, fun _ => by simp⟩
    · exact ⟨opt_empty_of_getD ht, fun _ => by simp⟩
    · exact ⟨opt_empty_of_getD hc, fun _ => by simp⟩
    · exact ⟨opt_empty_of_getD hin, fun _ => by simp⟩
    · exact ⟨opt_empty_of_getD hro, fun _ => by simp⟩
    · refine ⟨opt_empty_of_getD hs, fun hne => ?_⟩
      rcases hsafe with h | h
      · exact absurd h hne
      · exact h
  have hrm : ruleMatches r (propsOf w) = Except.ok true := by
    simp [ruleMatches, hsp, hg]
  have hempty : ruleMatches ({} : Rule) (propsOf w) = Except.ok true := by
    simp [ruleMatches, ruleChecks, specificPass, genericOk]
  refine ⟨hrm, hempty, ?_⟩
  show matchLoop (propsOf w) (r :: rest) = _
  simp [matchLoop, hrm]

/-- Witness for C10 (amended): the all-empty-string rule matches
`sampleWindow` (whose shell snapshot is `some ""`) and yields its colors. -/
theorem C10_empty_constraints_match_witness :
    ruleMatches allEmptyRule (propsOf sampleWindow) = Except.ok true ∧
    get_colors_for_window [allEmptyRule] sampleWindow = Except.ok (some "#abcdef", none) :=
  ⟨(C10_empty_constraints_match allEmptyRule sampleWindow [] rfl rfl rfl rfl rfl rfl rfl
      (Or.inr (by decide))).1,
   (C10_empty_constraints_match allEmptyRule sampleWindow [] rfl rfl rfl rfl rfl rfl rfl
      (Or.inr (by decide))).2.2⟩

end SwayTabColors
